import Mathlib

/- Verification of the form and query components of the lazorkit-nextjs-starter
repository. The TypeScript components are shallowly embedded: component state
becomes a record, a submit handler becomes a function from its environment
(the connection flag, the outcome of the PublicKey constructor, the outcome of
the awaited SDK call) to the list of state updates it performs, and JS numbers
are modelled by exact rationals. -/

namespace Starter

/-- Outcome of constructing a solana-web3 PublicKey from a user supplied
string: the constructor either succeeds or throws a JS Error carrying a
message. The constructor itself is external SDK code, so its outcome is a
parameter of the embedding. -/
inductive PubkeyOutcome where
  | ok
  | err (msg : String)
deriving DecidableEq

/-- A value caught by a JS catch clause: an Error object carrying a message,
or some non-Error value. -/
inductive Caught where
  | jsError (msg : String)
  | notError
deriving DecidableEq

/-- Result of awaiting the external SDK call (signAndSendTransaction or
signMessage): it resolves with a signature string or rejects with a caught
value. -/
inductive CallOutcome where
  | success (sig : String)
  | failure (c : Caught)
deriving DecidableEq

/-- Greedily consume decimal digits from the front of the character list,
returning the accumulated value, the number of digits consumed, and the rest
of the list. -/
def parseDigits : List Char → ℕ → ℕ → ℕ × ℕ × List Char
  | [], acc, k => (acc, k, [])
  | c :: cs, acc, k =>
    if c.isDigit then parseDigits cs (10 * acc + (c.toNat - 48)) (k + 1)
    else (acc, k, c :: cs)

/-- Optional sign in front of a mantissa or an exponent. -/
def parseSign : List Char → ℤ × List Char
  | '-' :: rest => (-1, rest)
  | '+' :: rest => (1, rest)
  | cs => (1, cs)

/-- Optional exponent tail: a sign followed by digits; with no digit the
exponent part is not consumed and counts as zero. -/
def parseExpPart (cs : List Char) : ℤ :=
  let es := parseSign cs
  let ed := parseDigits es.2 0 0
  if ed.2.1 = 0 then 0 else es.1 * (ed.1 : ℤ)

/-- Digit-level phase of the JS parseFloat applied to the amount input:
leading whitespace is skipped, then the longest prefix of the form sign,
digits, optional fraction, optional exponent is read; none models NaN (no
digit at all). The result is the signed mantissa with the decimal point
removed, the number of fraction digits, and the exponent. -/
def parseFloatParts (s : String) : Option (ℤ × ℕ × ℤ) :=
  let cs := s.data.dropWhile (fun c => c.isWhitespace)
  let sp := parseSign cs
  let ipart := parseDigits sp.2 0 0
  let fpart :=
    match ipart.2.2 with
    | '.' :: rest => parseDigits rest 0 0
    | _ => (0, 0, ipart.2.2)
  if ipart.2.1 + fpart.2.1 = 0 then none
  else
    let mant : ℤ := sp.1 * ((ipart.1 : ℤ) * (10 : ℤ) ^ fpart.2.1 + (fpart.1 : ℤ))
    let ex : ℤ :=
      match fpart.2.2 with
      | 'e' :: rest => parseExpPart rest
      | 'E' :: rest => parseExpPart rest
      | _ => 0
    some (mant, fpart.2.1, ex)

/-- The numeric value of the parsed amount. Exact rational arithmetic stands
in for IEEE doubles. -/
def parseFloat (s : String) : Option ℚ :=
  (parseFloatParts s).map
    (fun p => (p.1 : ℚ) / (10 : ℚ) ^ p.2.1 * (10 : ℚ) ^ p.2.2)

/-- The solana-web3 constant: lamports per SOL. -/
def LAMPORTS_PER_SOL : ℚ := 1000000000

/-- Local useState hooks of the three form components, gathered in one
record. Each handler touches only the fields its component declares:
recipient, amount, loading, txSignature, error for the two transfer forms;
message, signature, loading, error for the message signing form. -/
structure UIState where
  recipient : String
  amount : String
  message : String
  loading : Bool
  txSignature : String
  signature : String
  error : String
deriving DecidableEq

/-- One observable step of a submit handler: a setState call, the start of
the awaited external SDK call (carrying the minor-unit amount placed in the
transfer instruction, or the message to sign), or the settling of that
call. -/
inductive Ev where
  | setLoading (b : Bool)
  | setError (s : String)
  | setTxSignature (s : String)
  | setSignature (s : String)
  | setRecipient (s : String)
  | setAmount (s : String)
  | invokeTransfer (minorUnits : ℚ)
  | invokeSign (msg : String)
  | settle
deriving DecidableEq

/-- Effect of one event on the component state; the two call markers and the
settle marker do not change local state. -/
def applyEv (s : UIState) : Ev → UIState
  | Ev.setLoading b => { s with loading := b }
  | Ev.setError e => { s with error := e }
  | Ev.setTxSignature t => { s with txSignature := t }
  | Ev.setSignature t => { s with signature := t }
  | Ev.setRecipient r => { s with recipient := r }
  | Ev.setAmount a => { s with amount := a }
  | Ev.invokeTransfer _ => s
  | Ev.invokeSign _ => s
  | Ev.settle => s

/-- Run a handler trace over a starting state. -/
def runEvents (s : UIState) (tr : List Ev) : UIState := tr.foldl applyEv s

/-- Events that start the external SDK call. -/
def isInvoke : Ev → Bool
  | Ev.invokeTransfer _ => true
  | Ev.invokeSign _ => true
  | _ => false

/-- True when the handler trace invoked the external call. -/
def invoked (tr : List Ev) : Bool := tr.any isInvoke

/-- The minor-unit amount handed to the first external transfer call of the
trace, if there is one. -/
def forwardedAmount (tr : List Ev) : Option ℚ :=
  match tr.dropWhile (fun e => !(isInvoke e)) with
  | Ev.invokeTransfer q :: _ => some q
  | _ => none

/-- Component state at the moment the first external call starts. -/
def stateAtInvoke (s : UIState) (tr : List Ev) : UIState :=
  runEvents s (tr.takeWhile (fun e => !(isInvoke e)))

namespace TransferForm

/-- Error text produced by the catch clause of handleTransfer in
components/TransferForm.tsx: the message of a caught Error, a fixed fallback
for a non-Error value. -/
def catchText : Caught → String
  | Caught.jsError m => m
  | Caught.notError => "Transaction failed"

/-- Body of the try block of handleTransfer in components/TransferForm.tsx.
A failed PublicKey construction is rethrown as an Error with a fixed
validation message; a NaN parse or a non-positive lamports value throws a
validation Error before the SDK call; otherwise signAndSendTransaction is
awaited, a success stores the signature and clears the inputs, a rejection
propagates the caught value. The pair holds the emitted events and the
caught value escaping the block, if any. -/
def tryBlock (pk : String → PubkeyOutcome) (outcome : CallOutcome) (s : UIState) :
    List Ev × Option Caught :=
  match pk s.recipient with
  | PubkeyOutcome.err _ => ([], some (Caught.jsError "Invalid recipient address"))
  | PubkeyOutcome.ok =>
    match parseFloat s.amount with
    | none => ([], some (Caught.jsError "Invalid amount"))
    | some q =>
      let lamports := q * LAMPORTS_PER_SOL
      if lamports ≤ 0 then ([], some (Caught.jsError "Invalid amount"))
      else
        match outcome with
        | CallOutcome.success sig =>
          ([Ev.invokeTransfer lamports, Ev.settle, Ev.setTxSignature sig,
            Ev.setRecipient "", Ev.setAmount ""], none)
        | CallOutcome.failure c =>
          ([Ev.invokeTransfer lamports, Ev.settle], some c)

/-- The handleTransfer submit handler of components/TransferForm.tsx. When
the wallet is not connected only an error is set; otherwise the loading flag
is raised and the prior error and signature cleared, the try block runs, a
caught value is rendered through catchText, and the finally clause lowers
the loading flag. -/
def handleTransfer (connected : Bool) (pk : String → PubkeyOutcome)
    (outcome : CallOutcome) (s : UIState) : List Ev :=
  if connected then
    [Ev.setLoading true, Ev.setError "", Ev.setTxSignature ""] ++
      ((tryBlock pk outcome s).1 ++
        (match (tryBlock pk outcome s).2 with
         | some c => [Ev.setError (catchText c)]
         | none => [])) ++
      [Ev.setLoading false]
  else [Ev.setError "Wallet not connected"]

end TransferForm

namespace USDCTransferForm

/-- True when the first list is an initial segment of the second. -/
def startsWithChars : List Char → List Char → Bool
  | [], _ => true
  | _ :: _, [] => false
  | p :: ps, c :: cs => p == c && startsWithChars ps cs

/-- True when the pattern occurs somewhere in the text. -/
def containsChars (pat : List Char) : List Char → Bool
  | [] => startsWithChars pat []
  | c :: cs => startsWithChars pat (c :: cs) || containsChars pat cs

/-- Substring test modelling the JS String.prototype.includes used by the
catch clause. -/
def includesSubstr (s pat : String) : Bool := containsChars pat.data s.data

/-- Message of the RangeError thrown by BigInt applied to NaN, which is what
Math.floor of a NaN amount produces. -/
def bigIntNaNText : String :=
  "The number NaN cannot be converted to a BigInt because it is not an integer"

/-- Message of the RangeError thrown by Buffer.writeBigUInt64LE for a value
outside the unsigned 64-bit range. -/
def writeRangeText : String := "The value of \"value\" is out of range"

/-- Error text produced by the catch clause of handleTransfer in
components/USDCTransferForm.tsx: token-account errors and insufficient-funds
errors are rewritten to fixed helpful strings, any other message is shown,
and a missing or empty message falls back to a generic string. -/
def catchText : Caught → String
  | Caught.jsError m =>
    if includesSubstr m "TokenAccountNotFoundError" || includesSubstr m "AccountNotFound" then
      "USDC account not found. Make sure you have USDC in your wallet."
    else if includesSubstr m "insufficient funds" then "Insufficient USDC balance"
    else if m = "" then "Transaction failed"
    else m
  | Caught.notError => "Transaction failed"

/-- Body of the try block of handleTransfer in
components/USDCTransferForm.tsx. A failed PublicKey construction propagates
its own message. The amount is floored to integer minor units with no
validation: a NaN parse aborts when BigInt is applied to it, a floored value
outside the unsigned 64-bit range aborts when it is written into the 9-byte
instruction payload, and any in-range value, zero included, is forwarded to
signAndSendTransaction. -/
def tryBlock (pk : String → PubkeyOutcome) (outcome : CallOutcome) (s : UIState) :
    List Ev × Option Caught :=
  match pk s.recipient with
  | PubkeyOutcome.err m => ([], some (Caught.jsError m))
  | PubkeyOutcome.ok =>
    match parseFloat s.amount with
    | none => ([], some (Caught.jsError bigIntNaNText))
    | some q =>
      let usdcAmount : ℤ := Int.floor (q * 1000000)
      if usdcAmount < 0 ∨ (2 : ℤ) ^ 64 ≤ usdcAmount then
        ([], some (Caught.jsError writeRangeText))
      else
        match outcome with
        | CallOutcome.success sig =>
          ([Ev.invokeTransfer (usdcAmount : ℚ), Ev.settle, Ev.setTxSignature sig,
            Ev.setRecipient "", Ev.setAmount ""], none)
        | CallOutcome.failure c =>
          ([Ev.invokeTransfer (usdcAmount : ℚ), Ev.settle], some c)

/-- The handleTransfer submit handler of components/USDCTransferForm.tsx,
with the same guard, clearing, catch and finally structure as the SOL
form. -/
def handleTransfer (connected : Bool) (pk : String → PubkeyOutcome)
    (outcome : CallOutcome) (s : UIState) : List Ev :=
  if connected then
    [Ev.setLoading true, Ev.setError "", Ev.setTxSignature ""] ++
      ((tryBlock pk outcome s).1 ++
        (match (tryBlock pk outcome s).2 with
         | some c => [Ev.setError (catchText c)]
         | none => [])) ++
      [Ev.setLoading false]
  else [Ev.setError "Wallet not connected"]

end USDCTransferForm

namespace SignMessage

/-- Error text produced by the catch clause of handleSign in
components/SignMessage.tsx: the caught message when present and nonempty,
otherwise a generic fallback. -/
def catchText : Caught → String
  | Caught.jsError m => if m = "" then "Failed to sign message" else m
  | Caught.notError => "Failed to sign message"

/-- The handleSign submit handler of components/SignMessage.tsx. A blank
message is rejected up front (the JS guard tests the trimmed message for
emptiness, that is, whether every character is whitespace); otherwise the loading flag is raised, the
prior error and signature cleared, signMessage awaited on the message, a
success stores the returned signature without touching the message field, a
rejection stores the error text, and the finally clause lowers the loading
flag. -/
def handleSign (outcome : CallOutcome) (s : UIState) : List Ev :=
  if s.message.data.all (fun c => c.isWhitespace) then
    [Ev.setError "Please enter a message to sign"]
  else
    [Ev.setLoading true, Ev.setError "", Ev.setSignature ""] ++
      (match outcome with
       | CallOutcome.success sig =>
         [Ev.invokeSign s.message, Ev.settle, Ev.setSignature sig]
       | CallOutcome.failure c =>
         [Ev.invokeSign s.message, Ev.settle, Ev.setError (catchText c)]) ++
      [Ev.setLoading false]

end SignMessage

namespace WalletInfo

/-- Local useState hooks of components/WalletInfo.tsx: the balance starts as
null, a refresh flag, and a copied flag for the address button. The
component declares no error state hook. -/
structure State where
  balance : Option ℚ
  isRefreshing : Bool
  copied : Bool
deriving DecidableEq

/-- The handleRefresh callback of components/WalletInfo.tsx, with getBalance
as the external RPC query returning lamports. Without a connected wallet it
returns at once; a successful query stores the balance divided by
LAMPORTS_PER_SOL; a failed query is only written to the console, leaving
every displayed field unchanged; the finally clause lowers the refresh
flag. -/
def handleRefresh (connected : Bool) (getBalance : Except String ℤ) (s : State) :
    State :=
  if connected then
    match getBalance with
    | Except.ok lam =>
      { s with balance := some ((lam : ℚ) / LAMPORTS_PER_SOL), isRefreshing := false }
    | Except.error _ => { s with isRefreshing := false }
  else s

/-- What the balance area of components/WalletInfo.tsx can show: the loading
skeleton while balance is null, or the value. The JSX declares no third
alternative. -/
inductive BalanceView where
  | skeleton
  | value (sol : ℚ)
deriving DecidableEq

/-- Rendering of the balance area: showSkeleton is balance === null,
otherwise the numeric balance is shown. -/
def renderBalance (s : State) : BalanceView :=
  match s.balance with
  | none => BalanceView.skeleton
  | some b => BalanceView.value b

end WalletInfo

namespace ActivityLog

/-- One entry returned by getSignaturesForAddress, as used by the ActivityLog
component given in CONTRIBUTING.md. The err field of the response is only
ever tested for truthiness, so it is modelled as a Bool. -/
structure SigInfo where
  signature : String
  slot : ℕ
  err : Bool
  memo : Option String
  blockTime : Option ℤ
  confirmationStatus : Option String
deriving DecidableEq

/-- The display record the component builds from one response entry. -/
structure ActivityItem where
  signature : String
  slot : ℕ
  err : Bool
  memo : Option String
  blockTime : Option ℤ
  confirmationStatus : Option String
  type : String
deriving DecidableEq

/-- The mapping applied to each response entry inside fetchActivity; the type
field is the fixed simplified inference. -/
def toItem (sig : SigInfo) : ActivityItem :=
  { signature := sig.signature, slot := sig.slot, err := sig.err,
    memo := sig.memo, blockTime := sig.blockTime,
    confirmationStatus := sig.confirmationStatus, type := "interaction" }

/-- Local useState hooks of the ActivityLog component in CONTRIBUTING.md. -/
structure State where
  activities : List ActivityItem
  loading : Bool
  error : Option String
deriving DecidableEq

/-- The fetchActivity callback of the ActivityLog component in
CONTRIBUTING.md. Without a connected wallet it returns at once. Otherwise it
always issues one getSignaturesForAddress request with limit 10 (net maps
the requested limit to the response), replaces the whole list with the
mapped fresh response on success, and sets a fixed error text on failure.
The second component of the result records the limit passed to the network,
none when no request was made. -/
def fetchActivity (smartWallet : Option String)
    (net : ℕ → Except String (List SigInfo)) (s : State) : State × Option ℕ :=
  match smartWallet with
  | none => (s, none)
  | some _ =>
    match net 10 with
    | Except.ok sigs =>
      ({ activities := sigs.map toItem, loading := false, error := none }, some 10)
    | Except.error _ =>
      ({ s with loading := false, error := some "Failed to load history." }, some 10)

/-- The getTimeAgo helper of the ActivityLog component in CONTRIBUTING.md:
buckets the elapsed time between Date.now (milliseconds) and a unix
timestamp (seconds). A missing or zero timestamp is reported as unknown,
matching the JS truthiness guard. -/
def getTimeAgo (nowMs : ℤ) (timestamp : Option ℤ) : String :=
  match timestamp with
  | none => "Unknown time"
  | some t =>
    if t = 0 then "Unknown time"
    else
      let diff : ℤ := Int.floor ((nowMs : ℚ) / 1000 - (t : ℚ))
      if diff < 60 then "Just now"
      else if diff < 3600 then toString (Int.floor ((diff : ℚ) / 60)) ++ "m ago"
      else if diff < 86400 then toString (Int.floor ((diff : ℚ) / 3600)) ++ "h ago"
      else toString (Int.floor ((diff : ℚ) / 86400)) ++ "d ago"

end ActivityLog

/-- C5: getTimeAgo buckets a nonzero timestamp by the elapsed seconds d
between Date.now and the timestamp: below 60 seconds the text is Just now
(so a timestamp 30 seconds in the past renders Just now); below one hour it
is floor of the minutes followed by m ago; below one day, floor of the hours
followed by h ago; otherwise floor of the days followed by d ago. -/
theorem c5_getTimeAgo_buckets (nowMs t d : ℤ) (ht : t ≠ 0)
    (hd : d = Int.floor ((nowMs : ℚ) / 1000 - (t : ℚ))) :
    (d < 60 → ActivityLog.getTimeAgo nowMs (some t) = "Just now")
    ∧ (60 ≤ d → d < 3600 →
        ActivityLog.getTimeAgo nowMs (some t) =
          toString (Int.floor ((d : ℚ) / 60)) ++ "m ago")
    ∧ (3600 ≤ d → d < 86400 →
        ActivityLog.getTimeAgo nowMs (some t) =
          toString (Int.floor ((d : ℚ) / 3600)) ++ "h ago")
    ∧ (86400 ≤ d →
        ActivityLog.getTimeAgo nowMs (some t) =
          toString (Int.floor ((d : ℚ) / 86400)) ++ "d ago") := by
  subst hd
  unfold ActivityLog.getTimeAgo
  refine ⟨fun h1 => ?_, fun h1 h2 => ?_, fun h1 h2 => ?_, fun h1 => ?_⟩ <;>
    simp only [if_neg ht]
  · rw [if_pos h1]
  · rw [if_neg (by omega), if_pos h2]
  · rw [if_neg (by omega), if_neg (by omega), if_pos h2]
  · rw [if_neg (by omega), if_neg (by omega), if_neg (by omega)]

/-- C5 witness: the four elapsed times named in the specification, against a
concrete clock value: 30 seconds renders Just now, 5 minutes renders 5m ago,
3 hours renders 3h ago, 2 days renders 2d ago. -/
theorem c5_witness :
    ActivityLog.getTimeAgo 1730000000000 (some 1729999970) = "Just now"
    ∧ ActivityLog.getTimeAgo 1730000000000 (some 1729999700) = "5m ago"
    ∧ ActivityLog.getTimeAgo 1730000000000 (some 1729989200) = "3h ago"
    ∧ ActivityLog.getTimeAgo 1730000000000 (some 1729827200) = "2d ago" := by
  have e30 : ((1730000000000 : ℤ) : ℚ) / 1000 - ((1729999970 : ℤ) : ℚ) = ((30 : ℤ) : ℚ) := by
    norm_num
  have e300 : ((1730000000000 : ℤ) : ℚ) / 1000 - ((1729999700 : ℤ) : ℚ) = ((300 : ℤ) : ℚ) := by
    norm_num
  have e3h : ((1730000000000 : ℤ) : ℚ) / 1000 - ((1729989200 : ℤ) : ℚ) = ((10800 : ℤ) : ℚ) := by
    norm_num
  have e2d : ((1730000000000 : ℤ) : ℚ) / 1000 - ((1729827200 : ℤ) : ℚ) = ((172800 : ℤ) : ℚ) := by
    norm_num
  refine ⟨?_, ?_, ?_, ?_⟩
  · exact (c5_getTimeAgo_buckets 1730000000000 1729999970 30 (by decide)
      (by rw [e30, Int.floor_intCast])).1 (by decide)
  · have h := (c5_getTimeAgo_buckets 1730000000000 1729999700 300 (by decide)
      (by rw [e300, Int.floor_intCast])).2.1 (by decide) (by decide)
    rw [h, show Int.floor ((((300 : ℤ) : ℚ)) / 60) = 5 by norm_num [Int.floor_eq_iff]]
    decide
  · have h := (c5_getTimeAgo_buckets 1730000000000 1729989200 10800 (by decide)
      (by rw [e3h, Int.floor_intCast])).2.2.1 (by decide) (by decide)
    rw [h, show Int.floor ((((10800 : ℤ) : ℚ)) / 3600) = 3 by norm_num [Int.floor_eq_iff]]
    decide
  · have h := (c5_getTimeAgo_buckets 1730000000000 1729827200 172800 (by decide)
      (by rw [e2d, Int.floor_intCast])).2.2.2 (by decide)
    rw [h, show Int.floor ((((172800 : ℤ) : ℚ)) / 86400) = 2 by norm_num [Int.floor_eq_iff]]
    decide

/-- C6: every invocation of fetchActivity with a connected wallet issues one
network request with limit exactly 10, on success replaces the display list
with the mapped fresh response, and uses no cache: its request and its
resulting display list are independent of whatever state was stored before
the invocation. -/
theorem c6_fetchActivity_fresh (w : String)
    (net : ℕ → Except String (List ActivityLog.SigInfo))
    (s1 s2 : ActivityLog.State) :
    (ActivityLog.fetchActivity (some w) net s1).2 = some 10
    ∧ (∀ sigs, net 10 = Except.ok sigs →
        (ActivityLog.fetchActivity (some w) net s1).1.activities =
          sigs.map ActivityLog.toItem)
    ∧ (∀ sigs, net 10 = Except.ok sigs →
        (ActivityLog.fetchActivity (some w) net s1).1 =
          (ActivityLog.fetchActivity (some w) net s2).1) := by
  unfold ActivityLog.fetchActivity
  rcases h : net 10 with sigs | e <;>
    simp_all

/-- C6 witness: fetchActivity applied to a concrete wallet, network response
and two different stored states. -/
theorem c6_witness :
    (ActivityLog.fetchActivity (some "W")
        (fun _ => Except.ok ([] : List ActivityLog.SigInfo))
        { activities := [], loading := false, error := none }).2 = some 10
    ∧ (ActivityLog.fetchActivity (some "W")
        (fun _ => Except.ok ([] : List ActivityLog.SigInfo))
        { activities := [], loading := false, error := none }).1.activities =
        ([] : List ActivityLog.SigInfo).map ActivityLog.toItem
    ∧ (ActivityLog.fetchActivity (some "W")
        (fun _ => Except.ok ([] : List ActivityLog.SigInfo))
        { activities := [], loading := false, error := none }).1 =
      (ActivityLog.fetchActivity (some "W")
        (fun _ => Except.ok ([] : List ActivityLog.SigInfo))
        { activities :=
            [{ signature := "old", slot := 1, err := false, memo := none,
               blockTime := none, confirmationStatus := none,
               type := "interaction" }],
          loading := true, error := some "stale" }).1 := by
  have h := c6_fetchActivity_fresh "W"
    (fun _ => Except.ok ([] : List ActivityLog.SigInfo))
    { activities := [], loading := false, error := none }
    { activities :=
        [{ signature := "old", slot := 1, err := false, memo := none,
           blockTime := none, confirmationStatus := none,
           type := "interaction" }],
      loading := true, error := some "stale" }
  exact ⟨h.1, h.2.1 [] rfl, h.2.2 [] rfl⟩

/-- C8: in every form handler the loading flag is true at the moment the
external call starts, the settle step directly follows the invoke step in
the trace while neither of the two changes any state, so the flag stays
true for the whole interval between invocation and settlement, and once the
handler has run to completion the flag is false again, on the success and on
the failure path alike. -/
theorem c8_loading_flag (pk : String → PubkeyOutcome) (outcome : CallOutcome)
    (s : UIState) :
    (∀ u q, applyEv u (Ev.invokeTransfer q) = u)
    ∧ (∀ u m, applyEv u (Ev.invokeSign m) = u)
    ∧ (∀ u, applyEv u Ev.settle = u)
    ∧ (invoked (TransferForm.handleTransfer true pk outcome s) = true →
        (stateAtInvoke s (TransferForm.handleTransfer true pk outcome s)).loading = true)
    ∧ (invoked (TransferForm.handleTransfer true pk outcome s) = true →
        (((TransferForm.handleTransfer true pk outcome s).dropWhile
            (fun e => !(isInvoke e))).drop 1).head? = some Ev.settle)
    ∧ (runEvents s (TransferForm.handleTransfer true pk outcome s)).loading = false
    ∧ (invoked (USDCTransferForm.handleTransfer true pk outcome s) = true →
        (stateAtInvoke s (USDCTransferForm.handleTransfer true pk outcome s)).loading = true)
    ∧ (invoked (USDCTransferForm.handleTransfer true pk outcome s) = true →
        (((USDCTransferForm.handleTransfer true pk outcome s).dropWhile
            (fun e => !(isInvoke e))).drop 1).head? = some Ev.settle)
    ∧ (runEvents s (USDCTransferForm.handleTransfer true pk outcome s)).loading = false
    ∧ (invoked (SignMessage.handleSign outcome s) = true →
        (stateAtInvoke s (SignMessage.handleSign outcome s)).loading = true)
    ∧ (invoked (SignMessage.handleSign outcome s) = true →
        (((SignMessage.handleSign outcome s).dropWhile
            (fun e => !(isInvoke e))).drop 1).head? = some Ev.settle)
    ∧ (s.message.data.all (fun c => c.isWhitespace) = false →
        (runEvents s (SignMessage.handleSign outcome s)).loading = false) := by
  refine ⟨fun u q => rfl, fun u m => rfl, fun u => rfl,
    fun hinv => ?_, fun hinv => ?_, ?_, fun hinv => ?_, fun hinv => ?_, ?_,
    fun hinv => ?_, fun hinv => ?_, fun hg => ?_⟩
  all_goals
    rcases hpk : pk s.recipient with _ | m <;>
      rcases hq : parseFloat s.amount with _ | q <;>
        rcases outcome with sig | c <;>
          simp only [TransferForm.handleTransfer, TransferForm.tryBlock,
            USDCTransferForm.handleTransfer, USDCTransferForm.tryBlock,
            SignMessage.handleSign, hpk, hq, if_true] at * <;>
          (try split_ifs at *) <;>
          simp_all [invoked, isInvoke, stateAtInvoke, runEvents, applyEv]

/-- C8 witness: the loading discipline evaluated on a concrete connected
submission with a valid recipient and the amount 1, for all three forms. -/
theorem c8_witness :
    (stateAtInvoke
        { recipient := "R", amount := "1", message := "hi", loading := false,
          txSignature := "", signature := "", error := "" }
        (TransferForm.handleTransfer true (fun _ => PubkeyOutcome.ok)
          (CallOutcome.success "SIG")
          { recipient := "R", amount := "1", message := "hi", loading := false,
            txSignature := "", signature := "", error := "" })).loading = true
    ∧ (runEvents
        { recipient := "R", amount := "1", message := "hi", loading := false,
          txSignature := "", signature := "", error := "" }
        (USDCTransferForm.handleTransfer true (fun _ => PubkeyOutcome.ok)
          (CallOutcome.success "SIG")
          { recipient := "R", amount := "1", message := "hi", loading := false,
            txSignature := "", signature := "", error := "" })).loading = false
    ∧ (runEvents
        { recipient := "R", amount := "1", message := "hi", loading := false,
          txSignature := "", signature := "", error := "" }
        (SignMessage.handleSign (CallOutcome.success "SIG")
          { recipient := "R", amount := "1", message := "hi", loading := false,
            txSignature := "", signature := "", error := "" })).loading = false := by
  have hq : parseFloat "1" = some 1 := by
    have hp : parseFloatParts "1" = some (1, 0, 0) := by decide
    simp [parseFloat, hp]
  have h := c8_loading_flag (fun _ => PubkeyOutcome.ok) (CallOutcome.success "SIG")
    { recipient := "R", amount := "1", message := "hi", loading := false,
      txSignature := "", signature := "", error := "" }
  refine ⟨h.2.2.2.1 ?_, h.2.2.2.2.2.2.2.2.1, h.2.2.2.2.2.2.2.2.2.2.2 (by decide)⟩
  simp [TransferForm.handleTransfer, TransferForm.tryBlock, hq, invoked, isInvoke,
    LAMPORTS_PER_SOL]
  norm_num

/-- C10: whenever a transfer or sign submission passes its guard, the handler
first raises the loading flag and resets the displayed error and the
displayed success result to the empty string, and in every trace that
reaches the external call the state at the moment of invocation carries an
empty error and an empty success result. -/
theorem c10_clears_before_call (pk : String → PubkeyOutcome)
    (outcome : CallOutcome) (s : UIState) :
    ((TransferForm.handleTransfer true pk outcome s).take 3 =
        [Ev.setLoading true, Ev.setError "", Ev.setTxSignature ""])
    ∧ (invoked (TransferForm.handleTransfer true pk outcome s) = true →
        (stateAtInvoke s (TransferForm.handleTransfer true pk outcome s)).error = ""
        ∧ (stateAtInvoke s (TransferForm.handleTransfer true pk outcome s)).txSignature = "")
    ∧ ((USDCTransferForm.handleTransfer true pk outcome s).take 3 =
        [Ev.setLoading true, Ev.setError "", Ev.setTxSignature ""])
    ∧ (invoked (USDCTransferForm.handleTransfer true pk outcome s) = true →
        (stateAtInvoke s (USDCTransferForm.handleTransfer true pk outcome s)).error = ""
        ∧ (stateAtInvoke s (USDCTransferForm.handleTransfer true pk outcome s)).txSignature = "")
    ∧ (s.message.data.all (fun c => c.isWhitespace) = false →
        (SignMessage.handleSign outcome s).take 3 =
          [Ev.setLoading true, Ev.setError "", Ev.setSignature ""])
    ∧ (invoked (SignMessage.handleSign outcome s) = true →
        (stateAtInvoke s (SignMessage.handleSign outcome s)).error = ""
        ∧ (stateAtInvoke s (SignMessage.handleSign outcome s)).signature = "") := by
  refine ⟨?_, fun hinv => ?_, ?_, fun hinv => ?_, fun hg => ?_, fun hinv => ?_⟩
  all_goals
    rcases hpk : pk s.recipient with _ | m <;>
      rcases hq : parseFloat s.amount with _ | q <;>
        rcases outcome with sig | c <;>
          simp only [TransferForm.handleTransfer, TransferForm.tryBlock,
            USDCTransferForm.handleTransfer, USDCTransferForm.tryBlock,
            SignMessage.handleSign, hpk, hq, if_true] at * <;>
          (try split_ifs at *) <;>
          simp_all [invoked, isInvoke, stateAtInvoke, runEvents, applyEv]

/-- C10 witness: the clearing discipline evaluated on a concrete connected
submission carrying a stale error and a stale success result. -/
theorem c10_witness :
    (TransferForm.handleTransfer true (fun _ => PubkeyOutcome.ok)
        (CallOutcome.success "SIG")
        { recipient := "R", amount := "1", message := "hi", loading := false,
          txSignature := "OLDSIG", signature := "OLD", error := "old error" }).take 3 =
      [Ev.setLoading true, Ev.setError "", Ev.setTxSignature ""]
    ∧ (stateAtInvoke
        { recipient := "R", amount := "1", message := "hi", loading := false,
          txSignature := "OLDSIG", signature := "OLD", error := "old error" }
        (USDCTransferForm.handleTransfer true (fun _ => PubkeyOutcome.ok)
          (CallOutcome.success "SIG")
          { recipient := "R", amount := "1", message := "hi", loading := false,
            txSignature := "OLDSIG", signature := "OLD", error := "old error" })).error = ""
    ∧ (stateAtInvoke
        { recipient := "R", amount := "1", message := "hi", loading := false,
          txSignature := "OLDSIG", signature := "OLD", error := "old error" }
        (SignMessage.handleSign (CallOutcome.success "SIG")
          { recipient := "R", amount := "1", message := "hi", loading := false,
            txSignature := "OLDSIG", signature := "OLD", error := "old error" })).signature = "" := by
  have hq : parseFloat "1" = some 1 := by
    have hp : parseFloatParts "1" = some (1, 0, 0) := by decide
    simp [parseFloat, hp]
  have hfloor : Int.floor ((1 : ℚ) * 1000000) = 1000000 := by
    rw [show ((1 : ℚ) * 1000000) = ((1000000 : ℤ) : ℚ) by norm_num, Int.floor_intCast]
  have h := c10_clears_before_call (fun _ => PubkeyOutcome.ok)
    (CallOutcome.success "SIG")
    { recipient := "R", amount := "1", message := "hi", loading := false,
      txSignature := "OLDSIG", signature := "OLD", error := "old error" }
  refine ⟨h.1, (h.2.2.2.1 ?_).1, (h.2.2.2.2.2 ?_).2⟩
  · simp [USDCTransferForm.handleTransfer, USDCTransferForm.tryBlock, hq, hfloor,
      invoked, isInvoke]
  · simp [SignMessage.handleSign, invoked, isInvoke]

/-- C3: whenever the PublicKey constructor rejects the recipient string, both
transfer handlers finish without invoking the external signing call and with
a nonempty validation message on display: the SOL form shows its fixed
message, the USDC form surfaces the constructor error through its catch
clause, which never produces an empty text. -/
theorem c3_invalid_recipient (pk : String → PubkeyOutcome) (outcome : CallOutcome)
    (s : UIState) (m : String) (h : pk s.recipient = PubkeyOutcome.err m) :
    invoked (TransferForm.handleTransfer true pk outcome s) = false
    ∧ (runEvents s (TransferForm.handleTransfer true pk outcome s)).error =
        "Invalid recipient address"
    ∧ invoked (USDCTransferForm.handleTransfer true pk outcome s) = false
    ∧ (runEvents s (USDCTransferForm.handleTransfer true pk outcome s)).error =
        USDCTransferForm.catchText (Caught.jsError m)
    ∧ USDCTransferForm.catchText (Caught.jsError m) ≠ "" := by
  refine ⟨?_, ?_, ?_, ?_, ?_⟩
  · simp [TransferForm.handleTransfer, TransferForm.tryBlock, h, invoked, isInvoke]
  · simp [TransferForm.handleTransfer, TransferForm.tryBlock, h, runEvents,
      applyEv, TransferForm.catchText]
  · simp [USDCTransferForm.handleTransfer, USDCTransferForm.tryBlock, h,
      invoked, isInvoke]
  · simp [USDCTransferForm.handleTransfer, USDCTransferForm.tryBlock, h,
      runEvents, applyEv]
  · unfold USDCTransferForm.catchText
    dsimp only
    split_ifs with h1 h2 h3 <;> simp_all

/-- C3 witness: a submission whose recipient string the PublicKey constructor
rejects with the usual constructor message. -/
theorem c3_witness :
    invoked (TransferForm.handleTransfer true
        (fun _ => PubkeyOutcome.err "Invalid public key input")
        (CallOutcome.success "SIG")
        { recipient := "not-an-address", amount := "1", message := "",
          loading := false, txSignature := "", signature := "", error := "" }) = false
    ∧ (runEvents
        { recipient := "not-an-address", amount := "1", message := "",
          loading := false, txSignature := "", signature := "", error := "" }
        (TransferForm.handleTransfer true
          (fun _ => PubkeyOutcome.err "Invalid public key input")
          (CallOutcome.success "SIG")
          { recipient := "not-an-address", amount := "1", message := "",
            loading := false, txSignature := "", signature := "", error := "" })).error =
      "Invalid recipient address"
    ∧ invoked (USDCTransferForm.handleTransfer true
        (fun _ => PubkeyOutcome.err "Invalid public key input")
        (CallOutcome.success "SIG")
        { recipient := "not-an-address", amount := "1", message := "",
          loading := false, txSignature := "", signature := "", error := "" }) = false := by
  have h := c3_invalid_recipient
    (fun _ => PubkeyOutcome.err "Invalid public key input")
    (CallOutcome.success "SIG")
    { recipient := "not-an-address", amount := "1", message := "",
      loading := false, txSignature := "", signature := "", error := "" }
    "Invalid public key input" rfl
  exact ⟨h.1, h.2.1, h.2.2.1⟩

/-- C1 counterexample: the amount string 0 parses to the non-positive
minor-unit value 0, yet the USDC handler neither raises a validation error
nor stops: the external signing call is invoked for that submission. -/
theorem c1_counterexample :
    invoked (USDCTransferForm.handleTransfer true (fun _ => PubkeyOutcome.ok)
        (CallOutcome.success "SIG")
        { recipient := "R", amount := "0", message := "", loading := false,
          txSignature := "", signature := "", error := "" }) = true
    ∧ (runEvents
        { recipient := "R", amount := "0", message := "", loading := false,
          txSignature := "", signature := "", error := "" }
        (USDCTransferForm.handleTransfer true (fun _ => PubkeyOutcome.ok)
          (CallOutcome.success "SIG")
          { recipient := "R", amount := "0", message := "", loading := false,
            txSignature := "", signature := "", error := "" })).error = "" := by
  have hq : parseFloat "0" = some 0 := by
    have hp : parseFloatParts "0" = some (0, 0, 0) := by decide
    simp [parseFloat, hp]
  constructor <;>
    simp [USDCTransferForm.handleTransfer, USDCTransferForm.tryBlock, hq,
      invoked, isInvoke, runEvents, applyEv]

/-- C1 amended: the SOL handler rejects every amount that parses as NaN or
whose lamports value is non-positive, with a nonempty validation message and
without invoking the external signing call. The USDC handler performs no
such validation: a NaN parse aborts with the BigInt conversion error and a
negative floored amount aborts with the buffer range error, both before the
signing call, but an amount whose floored minor-unit value is zero is not
rejected and the signing call is invoked. -/
theorem c1_amended (pk : String → PubkeyOutcome) (outcome : CallOutcome)
    (s : UIState) :
    (parseFloat s.amount = none →
        invoked (TransferForm.handleTransfer true pk outcome s) = false
        ∧ (runEvents s (TransferForm.handleTransfer true pk outcome s)).error ≠ "")
    ∧ (∀ q, parseFloat s.amount = some q → q * LAMPORTS_PER_SOL ≤ 0 →
        invoked (TransferForm.handleTransfer true pk outcome s) = false
        ∧ (runEvents s (TransferForm.handleTransfer true pk outcome s)).error ≠ "")
    ∧ (pk s.recipient = PubkeyOutcome.ok → parseFloat s.amount = none →
        invoked (USDCTransferForm.handleTransfer true pk outcome s) = false
        ∧ (runEvents s (USDCTransferForm.handleTransfer true pk outcome s)).error =
            USDCTransferForm.catchText (Caught.jsError USDCTransferForm.bigIntNaNText))
    ∧ (∀ q, pk s.recipient = PubkeyOutcome.ok → parseFloat s.amount = some q →
        Int.floor (q * 1000000) < 0 →
        invoked (USDCTransferForm.handleTransfer true pk outcome s) = false)
    ∧ (∀ q, pk s.recipient = PubkeyOutcome.ok → parseFloat s.amount = some q →
        Int.floor (q * 1000000) = 0 →
        invoked (USDCTransferForm.handleTransfer true pk outcome s) = true) := by
  refine ⟨fun hq => ?_, fun q hq hle => ?_, fun hpk hq => ?_,
    fun q hpk hq hneg => ?_, fun q hpk hq hzero => ?_⟩
  all_goals
    rcases hpk2 : pk s.recipient with _ | m <;>
      simp only [TransferForm.handleTransfer, TransferForm.tryBlock,
        USDCTransferForm.handleTransfer, USDCTransferForm.tryBlock,
        hpk2, hq, if_true] at * <;>
      (try split_ifs at * <;> try omega) <;>
      rcases outcome with sig | c <;>
      simp_all [invoked, isInvoke, runEvents, applyEv, TransferForm.catchText]

/-- C1 amended witness: the amended statement evaluated at the non-numeric
amount x, the negative amount -1 and the zero amount 0. -/
theorem c1_amended_witness :
    invoked (TransferForm.handleTransfer true (fun _ => PubkeyOutcome.ok)
        (CallOutcome.success "SIG")
        { recipient := "R", amount := "x", message := "", loading := false,
          txSignature := "", signature := "", error := "" }) = false
    ∧ invoked (TransferForm.handleTransfer true (fun _ => PubkeyOutcome.ok)
        (CallOutcome.success "SIG")
        { recipient := "R", amount := "-1", message := "", loading := false,
          txSignature := "", signature := "", error := "" }) = false
    ∧ invoked (USDCTransferForm.handleTransfer true (fun _ => PubkeyOutcome.ok)
        (CallOutcome.success "SIG")
        { recipient := "R", amount := "-1", message := "", loading := false,
          txSignature := "", signature := "", error := "" }) = false
    ∧ invoked (USDCTransferForm.handleTransfer true (fun _ => PubkeyOutcome.ok)
        (CallOutcome.success "SIG")
        { recipient := "R", amount := "0", message := "", loading := false,
          txSignature := "", signature := "", error := "" }) = true := by
  have hx : parseFloat "x" = none := by
    have hp : parseFloatParts "x" = none := by decide
    simp [parseFloat, hp]
  have hm1 : parseFloat "-1" = some (-1) := by
    have hp : parseFloatParts "-1" = some (-1, 0, 0) := by decide
    simp [parseFloat, hp]
  have h0 : parseFloat "0" = some 0 := by
    have hp : parseFloatParts "0" = some (0, 0, 0) := by decide
    simp [parseFloat, hp]
  have hfm1 : Int.floor ((-1 : ℚ) * 1000000) = -1000000 := by
    rw [show ((-1 : ℚ) * 1000000) = ((-1000000 : ℤ) : ℚ) by norm_num, Int.floor_intCast]
  have hf0 : Int.floor ((0 : ℚ) * 1000000) = 0 := by
    rw [show ((0 : ℚ) * 1000000) = ((0 : ℤ) : ℚ) by norm_num, Int.floor_intCast]
  refine ⟨(c1_amended (fun _ => PubkeyOutcome.ok) (CallOutcome.success "SIG")
      { recipient := "R", amount := "x", message := "", loading := false,
        txSignature := "", signature := "", error := "" }).1 hx |>.1,
    (c1_amended (fun _ => PubkeyOutcome.ok) (CallOutcome.success "SIG")
      { recipient := "R", amount := "-1", message := "", loading := false,
        txSignature := "", signature := "", error := "" }).2.1 (-1) hm1
      (by norm_num [LAMPORTS_PER_SOL]) |>.1,
    (c1_amended (fun _ => PubkeyOutcome.ok) (CallOutcome.success "SIG")
      { recipient := "R", amount := "-1", message := "", loading := false,
        txSignature := "", signature := "", error := "" }).2.2.2.1 (-1) rfl hm1
      (by rw [hfm1]; decide),
    (c1_amended (fun _ => PubkeyOutcome.ok) (CallOutcome.success "SIG")
      { recipient := "R", amount := "0", message := "", loading := false,
        txSignature := "", signature := "", error := "" }).2.2.2.2 0 rfl h0
      (by rw [hf0])⟩

/-- C2 counterexample: a successful signMessage call stores the returned
signature, but the message input field keeps its pre-submission value
instead of being reset to the empty string. -/
theorem c2_counterexample :
    (runEvents
        { recipient := "", amount := "", message := "hello", loading := false,
          txSignature := "", signature := "", error := "" }
        (SignMessage.handleSign (CallOutcome.success "SIG")
          { recipient := "", amount := "", message := "hello", loading := false,
            txSignature := "", signature := "", error := "" })).message = "hello"
    ∧ (runEvents
        { recipient := "", amount := "", message := "hello", loading := false,
          txSignature := "", signature := "", error := "" }
        (SignMessage.handleSign (CallOutcome.success "SIG")
          { recipient := "", amount := "", message := "hello", loading := false,
            txSignature := "", signature := "", error := "" })).signature = "SIG"
    ∧ ("hello" : String) ≠ "" := by
  refine ⟨?_, ?_, by decide⟩ <;>
    simp [SignMessage.handleSign, runEvents, applyEv]

/-- C2 amended: in the two transfer forms a successful call resets recipient
and amount to the empty string and stores the returned signature, while a
rejected call leaves both inputs at their pre-submission values and stores
the error text; in the message-signing form a successful call stores the
returned signature but leaves the message field untouched, and a rejected
call preserves the message and stores the error text. -/
theorem c2_amended (pk : String → PubkeyOutcome) (s : UIState) (sig : String)
    (c : Caught) :
    (∀ q, pk s.recipient = PubkeyOutcome.ok → parseFloat s.amount = some q →
        ¬ q * LAMPORTS_PER_SOL ≤ 0 →
        (runEvents s (TransferForm.handleTransfer true pk (CallOutcome.success sig) s)).recipient = ""
        ∧ (runEvents s (TransferForm.handleTransfer true pk (CallOutcome.success sig) s)).amount = ""
        ∧ (runEvents s (TransferForm.handleTransfer true pk (CallOutcome.success sig) s)).txSignature = sig
        ∧ (runEvents s (TransferForm.handleTransfer true pk (CallOutcome.success sig) s)).error = "")
    ∧ (∀ q, pk s.recipient = PubkeyOutcome.ok → parseFloat s.amount = some q →
        ¬ q * LAMPORTS_PER_SOL ≤ 0 →
        (runEvents s (TransferForm.handleTransfer true pk (CallOutcome.failure c) s)).recipient = s.recipient
        ∧ (runEvents s (TransferForm.handleTransfer true pk (CallOutcome.failure c) s)).amount = s.amount
        ∧ (runEvents s (TransferForm.handleTransfer true pk (CallOutcome.failure c) s)).txSignature = ""
        ∧ (runEvents s (TransferForm.handleTransfer true pk (CallOutcome.failure c) s)).error =
            TransferForm.catchText c)
    ∧ (∀ q, pk s.recipient = PubkeyOutcome.ok → parseFloat s.amount = some q →
        ¬ (Int.floor (q * 1000000) < 0 ∨ (2 : ℤ) ^ 64 ≤ Int.floor (q * 1000000)) →
        (runEvents s (USDCTransferForm.handleTransfer true pk (CallOutcome.success sig) s)).recipient = ""
        ∧ (runEvents s (USDCTransferForm.handleTransfer true pk (CallOutcome.success sig) s)).amount = ""
        ∧ (runEvents s (USDCTransferForm.handleTransfer true pk (CallOutcome.success sig) s)).txSignature = sig
        ∧ (runEvents s (USDCTransferForm.handleTransfer true pk (CallOutcome.success sig) s)).error = "")
    ∧ (∀ q, pk s.recipient = PubkeyOutcome.ok → parseFloat s.amount = some q →
        ¬ (Int.floor (q * 1000000) < 0 ∨ (2 : ℤ) ^ 64 ≤ Int.floor (q * 1000000)) →
        (runEvents s (USDCTransferForm.handleTransfer true pk (CallOutcome.failure c) s)).recipient = s.recipient
        ∧ (runEvents s (USDCTransferForm.handleTransfer true pk (CallOutcome.failure c) s)).amount = s.amount
        ∧ (runEvents s (USDCTransferForm.handleTransfer true pk (CallOutcome.failure c) s)).txSignature = ""
        ∧ (runEvents s (USDCTransferForm.handleTransfer true pk (CallOutcome.failure c) s)).error =
            USDCTransferForm.catchText c)
    ∧ (s.message.data.all (fun ch => ch.isWhitespace) = false →
        (runEvents s (SignMessage.handleSign (CallOutcome.success sig) s)).signature = sig
        ∧ (runEvents s (SignMessage.handleSign (CallOutcome.success sig) s)).message = s.message
        ∧ (runEvents s (SignMessage.handleSign (CallOutcome.success sig) s)).error = "")
    ∧ (s.message.data.all (fun ch => ch.isWhitespace) = false →
        (runEvents s (SignMessage.handleSign (CallOutcome.failure c) s)).message = s.message
        ∧ (runEvents s (SignMessage.handleSign (CallOutcome.failure c) s)).signature = ""
        ∧ (runEvents s (SignMessage.handleSign (CallOutcome.failure c) s)).error =
            SignMessage.catchText c) := by
  refine ⟨fun q hpk hq hpos => ?_, fun q hpk hq hpos => ?_,
    fun q hpk hq hrange => ?_, fun q hpk hq hrange => ?_,
    fun hg => ?_, fun hg => ?_⟩
  · simp [TransferForm.handleTransfer, TransferForm.tryBlock, hpk, hq,
      if_neg hpos, runEvents, applyEv]
  · simp [TransferForm.handleTransfer, TransferForm.tryBlock, hpk, hq,
      if_neg hpos, runEvents, applyEv]
  · simp only [USDCTransferForm.handleTransfer, USDCTransferForm.tryBlock, hpk, hq,
      if_true]
    rw [if_neg hrange]
    simp [runEvents, applyEv]
  · simp only [USDCTransferForm.handleTransfer, USDCTransferForm.tryBlock, hpk, hq,
      if_true]
    rw [if_neg hrange]
    simp [runEvents, applyEv]
  · simp [SignMessage.handleSign, hg, runEvents, applyEv]
  · simp [SignMessage.handleSign, hg, runEvents, applyEv]

/-- C2 amended witness: the amended statement evaluated on a concrete
submission with recipient R, amount 1 and message hi, for a resolving and a
rejecting call. -/
theorem c2_amended_witness :
    (runEvents
        { recipient := "R", amount := "1", message := "hi", loading := false,
          txSignature := "", signature := "", error := "" }
        (TransferForm.handleTransfer true (fun _ => PubkeyOutcome.ok)
          (CallOutcome.success "SIG")
          { recipient := "R", amount := "1", message := "hi", loading := false,
            txSignature := "", signature := "", error := "" })).recipient = ""
    ∧ (runEvents
        { recipient := "R", amount := "1", message := "hi", loading := false,
          txSignature := "", signature := "", error := "" }
        (TransferForm.handleTransfer true (fun _ => PubkeyOutcome.ok)
          (CallOutcome.failure (Caught.jsError "User rejected"))
          { recipient := "R", amount := "1", message := "hi", loading := false,
            txSignature := "", signature := "", error := "" })).recipient = "R"
    ∧ (runEvents
        { recipient := "R", amount := "1", message := "hi", loading := false,
          txSignature := "", signature := "", error := "" }
        (USDCTransferForm.handleTransfer true (fun _ => PubkeyOutcome.ok)
          (CallOutcome.success "SIG")
          { recipient := "R", amount := "1", message := "hi", loading := false,
            txSignature := "", signature := "", error := "" })).amount = ""
    ∧ (runEvents
        { recipient := "R", amount := "1", message := "hi", loading := false,
          txSignature := "", signature := "", error := "" }
        (SignMessage.handleSign (CallOutcome.success "SIG")
          { recipient := "R", amount := "1", message := "hi", loading := false,
            txSignature := "", signature := "", error := "" })).message = "hi" := by
  have hq : parseFloat "1" = some 1 := by
    have hp : parseFloatParts "1" = some (1, 0, 0) := by decide
    simp [parseFloat, hp]
  have hfloor : Int.floor ((1 : ℚ) * 1000000) = 1000000 := by
    rw [show ((1 : ℚ) * 1000000) = ((1000000 : ℤ) : ℚ) by norm_num, Int.floor_intCast]
  have hpos : ¬ (1 : ℚ) * LAMPORTS_PER_SOL ≤ 0 := by norm_num [LAMPORTS_PER_SOL]
  have hrange : ¬ (Int.floor ((1 : ℚ) * 1000000) < 0
      ∨ (2 : ℤ) ^ 64 ≤ Int.floor ((1 : ℚ) * 1000000)) := by
    rw [hfloor]; decide
  have hsucc := c2_amended (fun _ => PubkeyOutcome.ok)
    { recipient := "R", amount := "1", message := "hi", loading := false,
      txSignature := "", signature := "", error := "" } "SIG"
    (Caught.jsError "User rejected")
  exact ⟨(hsucc.1 1 rfl hq hpos).1, (hsucc.2.1 1 rfl hq hpos).1,
    (hsucc.2.2.1 1 rfl hq hrange).2.1, (hsucc.2.2.2.2.1 (by decide)).2.1⟩

/-- C4 counterexample: the USDC handler does classify and rewrite error
messages: a rejection whose Error message is insufficient funds is displayed
as the fixed text Insufficient USDC balance, not as the caught message. -/
theorem c4_counterexample :
    (runEvents
        { recipient := "R", amount := "1", message := "", loading := false,
          txSignature := "", signature := "", error := "" }
        (USDCTransferForm.handleTransfer true (fun _ => PubkeyOutcome.ok)
          (CallOutcome.failure (Caught.jsError "insufficient funds"))
          { recipient := "R", amount := "1", message := "", loading := false,
            txSignature := "", signature := "", error := "" })).error =
      "Insufficient USDC balance"
    ∧ ("Insufficient USDC balance" : String) ≠ "insufficient funds" := by
  have hq : parseFloat "1" = some 1 := by
    have hp : parseFloatParts "1" = some (1, 0, 0) := by decide
    simp [parseFloat, hp]
  have hfloor : Int.floor ((1 : ℚ) * 1000000) = 1000000 := by
    rw [show ((1 : ℚ) * 1000000) = ((1000000 : ℤ) : ℚ) by norm_num, Int.floor_intCast]
  constructor
  · simp [USDCTransferForm.handleTransfer, USDCTransferForm.tryBlock, hq, hfloor,
      runEvents, applyEv, USDCTransferForm.catchText,
      show USDCTransferForm.includesSubstr "insufficient funds" "TokenAccountNotFoundError" = false from by decide,
      show USDCTransferForm.includesSubstr "insufficient funds" "AccountNotFound" = false from by decide,
      show USDCTransferForm.includesSubstr "insufficient funds" "insufficient funds" = true from by decide]
  · decide

/-- C4 amended: the SOL handler displays a rejected call by rendering the
caught Error message unchanged, with a fixed generic fallback for a
non-Error value; the USDC handler classifies instead: messages mentioning a
missing token account map to a fixed help text, messages mentioning
insufficient funds map to the fixed text Insufficient USDC balance, and only
the remaining messages are shown unchanged, with the generic fallback for a
missing or empty message. -/
theorem c4_amended (pk : String → PubkeyOutcome) (s : UIState) (q : ℚ)
    (c : Caught) (hpk : pk s.recipient = PubkeyOutcome.ok)
    (hq : parseFloat s.amount = some q) :
    (¬ q * LAMPORTS_PER_SOL ≤ 0 →
        (runEvents s (TransferForm.handleTransfer true pk (CallOutcome.failure c) s)).error =
          TransferForm.catchText c)
    ∧ (∀ m, TransferForm.catchText (Caught.jsError m) = m)
    ∧ TransferForm.catchText Caught.notError = "Transaction failed"
    ∧ (¬ (Int.floor (q * 1000000) < 0 ∨ (2 : ℤ) ^ 64 ≤ Int.floor (q * 1000000)) →
        (runEvents s (USDCTransferForm.handleTransfer true pk (CallOutcome.failure c) s)).error =
          USDCTransferForm.catchText c)
    ∧ (∀ m, USDCTransferForm.includesSubstr m "insufficient funds" = true →
        USDCTransferForm.includesSubstr m "TokenAccountNotFoundError" = false →
        USDCTransferForm.includesSubstr m "AccountNotFound" = false →
        USDCTransferForm.catchText (Caught.jsError m) = "Insufficient USDC balance")
    ∧ (∀ m, USDCTransferForm.includesSubstr m "TokenAccountNotFoundError" = true →
        USDCTransferForm.catchText (Caught.jsError m) =
          "USDC account not found. Make sure you have USDC in your wallet.")
    ∧ USDCTransferForm.catchText Caught.notError = "Transaction failed" := by
  refine ⟨fun hpos => ?_, fun m => rfl, rfl, fun hrange => ?_,
    fun m h1 h2 h3 => ?_, fun m h1 => ?_, rfl⟩
  · simp [TransferForm.handleTransfer, TransferForm.tryBlock, hpk, hq,
      if_neg hpos, runEvents, applyEv]
  · simp only [USDCTransferForm.handleTransfer, USDCTransferForm.tryBlock, hpk, hq,
      if_true]
    rw [if_neg hrange]
    simp [runEvents, applyEv]
  · simp [USDCTransferForm.catchText, h1, h2, h3]
  · simp [USDCTransferForm.catchText, h1]

/-- C4 amended witness: the amended statement evaluated on a concrete
rejected submission for both forms. -/
theorem c4_amended_witness :
    (runEvents
        { recipient := "R", amount := "1", message := "", loading := false,
          txSignature := "", signature := "", error := "" }
        (TransferForm.handleTransfer true (fun _ => PubkeyOutcome.ok)
          (CallOutcome.failure (Caught.jsError "insufficient funds"))
          { recipient := "R", amount := "1", message := "", loading := false,
            txSignature := "", signature := "", error := "" })).error =
      TransferForm.catchText (Caught.jsError "insufficient funds")
    ∧ TransferForm.catchText (Caught.jsError "insufficient funds") = "insufficient funds"
    ∧ USDCTransferForm.catchText (Caught.jsError "insufficient funds") =
      "Insufficient USDC balance" := by
  have hq : parseFloat "1" = some 1 := by
    have hp : parseFloatParts "1" = some (1, 0, 0) := by decide
    simp [parseFloat, hp]
  have h := c4_amended (fun _ => PubkeyOutcome.ok)
    { recipient := "R", amount := "1", message := "", loading := false,
      txSignature := "", signature := "", error := "" } 1
    (Caught.jsError "insufficient funds") rfl hq
  exact ⟨h.1 (by norm_num [LAMPORTS_PER_SOL]),
    h.2.1 "insufficient funds",
    h.2.2.2.2.1 "insufficient funds" (by decide) (by decide) (by decide)⟩

/-- C7 counterexample: the SOL handler does not remove the fractional
remainder: the amount string 0.0000000005 is forwarded to the external
signing call as the lamports value one half, which is not an integer count
of minor units. -/
theorem c7_counterexample :
    forwardedAmount (TransferForm.handleTransfer true (fun _ => PubkeyOutcome.ok)
        (CallOutcome.success "SIG")
        { recipient := "R", amount := "0.0000000005", message := "",
          loading := false, txSignature := "", signature := "", error := "" }) =
      some (1 / 2)
    ∧ ¬ ∃ z : ℤ, ((z : ℚ)) = 1 / 2 := by
  have hq : parseFloat "0.0000000005" = some (1 / 2000000000) := by
    have hp : parseFloatParts "0.0000000005" = some (5, 10, 0) := by decide
    simp [parseFloat, hp]
    norm_num
  constructor
  · simp [TransferForm.handleTransfer, TransferForm.tryBlock, hq,
      forwardedAmount, isInvoke, LAMPORTS_PER_SOL]
    norm_num
  · rintro ⟨z, hz⟩
    have h2 : ((2 * z : ℤ) : ℚ) = 1 := by push_cast; linarith
    have : (2 * z : ℤ) = 1 := by exact_mod_cast h2
    omega

/-- C7 amended: the USDC handler forwards the floored product of the amount
and one million, an integer count of minor units; the SOL handler forwards
the product of the amount and LAMPORTS_PER_SOL unchanged, removing no
fractional remainder, so its forwarded value is an integer only when that
product happens to be one. -/
theorem c7_amended (pk : String → PubkeyOutcome) (outcome : CallOutcome)
    (s : UIState) (q : ℚ) (hpk : pk s.recipient = PubkeyOutcome.ok)
    (hq : parseFloat s.amount = some q) :
    (¬ q * LAMPORTS_PER_SOL ≤ 0 →
        forwardedAmount (TransferForm.handleTransfer true pk outcome s) =
          some (q * LAMPORTS_PER_SOL))
    ∧ (¬ (Int.floor (q * 1000000) < 0 ∨ (2 : ℤ) ^ 64 ≤ Int.floor (q * 1000000)) →
        forwardedAmount (USDCTransferForm.handleTransfer true pk outcome s) =
          some ((Int.floor (q * 1000000) : ℤ) : ℚ)) := by
  constructor <;> intro h <;>
    rcases outcome with sig | c <;>
    simp only [TransferForm.handleTransfer, TransferForm.tryBlock,
      USDCTransferForm.handleTransfer, USDCTransferForm.tryBlock, hpk, hq,
      if_true] <;>
    rw [if_neg h] <;>
    simp [forwardedAmount, isInvoke]

/-- C7 amended witness: the amended statement evaluated at the amount 1:
the SOL form forwards 1000000000 lamports, the USDC form forwards 1000000
minor units. -/
theorem c7_amended_witness :
    forwardedAmount (TransferForm.handleTransfer true (fun _ => PubkeyOutcome.ok)
        (CallOutcome.success "SIG")
        { recipient := "R", amount := "1", message := "", loading := false,
          txSignature := "", signature := "", error := "" }) =
      some 1000000000
    ∧ forwardedAmount (USDCTransferForm.handleTransfer true (fun _ => PubkeyOutcome.ok)
        (CallOutcome.success "SIG")
        { recipient := "R", amount := "1", message := "", loading := false,
          txSignature := "", signature := "", error := "" }) =
      some 1000000 := by
  have hq : parseFloat "1" = some 1 := by
    have hp : parseFloatParts "1" = some (1, 0, 0) := by decide
    simp [parseFloat, hp]
  have hfloor : Int.floor ((1 : ℚ) * 1000000) = 1000000 := by
    rw [show ((1 : ℚ) * 1000000) = ((1000000 : ℤ) : ℚ) by norm_num, Int.floor_intCast]
  have h := c7_amended (fun _ => PubkeyOutcome.ok) (CallOutcome.success "SIG")
    { recipient := "R", amount := "1", message := "", loading := false,
      txSignature := "", signature := "", error := "" } 1 rfl hq
  constructor
  · rw [h.1 (by norm_num [LAMPORTS_PER_SOL])]
    norm_num [LAMPORTS_PER_SOL]
  · rw [h.2 (by rw [hfloor]; decide), hfloor]
    norm_num

/-- C9 counterexample: a failed balance query in WalletInfo leaves the
component state exactly as it was, and the balance area still renders the
loading skeleton; no error state exists to be rendered, contradicting the
claim that a failing balance query renders an error state to the user. -/
theorem c9_counterexample :
    WalletInfo.handleRefresh true (Except.error "Failed to fetch balance")
        { balance := none, isRefreshing := false, copied := false } =
      { balance := none, isRefreshing := false, copied := false }
    ∧ WalletInfo.renderBalance
        (WalletInfo.handleRefresh true (Except.error "Failed to fetch balance")
          { balance := none, isRefreshing := false, copied := false }) =
      WalletInfo.BalanceView.skeleton := by
  exact ⟨rfl, rfl⟩

/-- C9 amended: WalletInfo queries the network for the balance of the
connected account and offers a manual refresh, but renders only a loading
skeleton and a value state: a successful query stores the converted balance,
while a failed query is merely logged and leaves every displayed field
unchanged, so no error state is ever rendered. -/
theorem c9_amended (s : WalletInfo.State) :
    (∀ lam : ℤ, WalletInfo.handleRefresh true (Except.ok lam) s =
        { s with balance := some ((lam : ℚ) / LAMPORTS_PER_SOL),
                 isRefreshing := false })
    ∧ (∀ e : String, WalletInfo.handleRefresh true (Except.error e) s =
        { s with isRefreshing := false })
    ∧ (s.balance = none →
        WalletInfo.renderBalance s = WalletInfo.BalanceView.skeleton)
    ∧ (∀ b, s.balance = some b →
        WalletInfo.renderBalance s = WalletInfo.BalanceView.value b) := by
  refine ⟨fun lam => rfl, fun e => rfl, fun h => ?_, fun b h => ?_⟩ <;>
    simp [WalletInfo.renderBalance, h]

/-- C9 amended witness: the amended statement evaluated on a concrete state
with an empty balance. -/
theorem c9_amended_witness :
    WalletInfo.handleRefresh true (Except.error "boom")
        { balance := none, isRefreshing := true, copied := false } =
      { balance := none, isRefreshing := false, copied := false }
    ∧ WalletInfo.renderBalance
        { balance := none, isRefreshing := true, copied := false } =
      WalletInfo.BalanceView.skeleton := by
  exact ⟨(c9_amended { balance := none, isRefreshing := true, copied := false }).2.1 "boom",
    (c9_amended { balance := none, isRefreshing := true, copied := false }).2.2.1 rfl⟩

end Starter
